import Mathlib

/-!
Verification of the MobiPlugin backend core against its specification.

The definitions below are a shallow embedding of the Python sources:
* `src/backend/app/models/schemas.py` — the pydantic data contracts;
* `src/backend/app/routes/teste.py` — the sketch resolver, the face
  resolver (`create_block`) and the drawer BOM generator (`create_drawer`);
* `src/backend/app/supabase_client.py` — the asset gateway
  (`SupabaseManager.get_asset`, `list_assets`, `delete_asset`).

Python floats are modelled as rationals (`ℚ`), Python ints as `ℤ` or `ℕ`
where the source only ever stores non-negative literals, fallible remote
calls as explicit outcome constructors, and `try/except` blocks as matches
on those constructors.
-/

/-- `PartDimensions` from `schemas.py` (lines 61–64): three float fields. -/
structure PartDimensions where
  largura : ℚ
  altura : ℚ
  profundidade : ℚ
deriving Repr, DecidableEq

/-- `PartProps` from `schemas.py` (lines 67–73): a BOM part.  `type` is the
part category string; `quantity` defaults to 1; `dimensions`, `material`
and `notes` are optional. -/
structure PartProps where
  name : String
  type : String
  quantity : ℕ := 1
  dimensions : Option PartDimensions := none
  material : Option String := none
  notes : Option String := none
deriving Repr, DecidableEq

/-- `AssemblyDefinition` from `schemas.py` (lines 76–81): drawer input.
The three dimension fields are declared as plain `float` with only a
description — the schema imposes no range constraint on them.  The two
flags default to `True`. -/
structure AssemblyDefinition where
  largura : ℚ
  altura : ℚ
  profundidade : ℚ
  include_handle : Bool := true
  include_screws : Bool := true
deriving Repr, DecidableEq

/-- `AssemblyResponse` from `schemas.py` (lines 84–89). -/
structure AssemblyResponse where
  name : String := "drawer"
  largura : ℚ
  altura : ℚ
  profundidade : ℚ
  parts : List PartProps
deriving Repr, DecidableEq

/-- Pydantic field validation for the three dimension fields of
`AssemblyDefinition` (`schemas.py` lines 76–81): each field is required
(`Field(...)`) and typed `float`, with no `gt`/`ge` or other range
validator attached, so validation only checks presence.  `none` models a
missing field in the request body. -/
def validateAssemblyDims : Option ℚ → Option ℚ → Option ℚ → Option (ℚ × ℚ × ℚ)
  | some l, some a, some p => some (l, a, p)
  | _, _, _ => none

/-- The body of `create_drawer` in `routes/teste.py` (lines 133–176): the
sequence of `parts.append(...)` calls, with the two `if` guards.  Every
literal (names, types, quantities, dimensions, materials, notes) is taken
verbatim from the source. -/
def drawerParts (L H D : ℚ) (include_handle include_screws : Bool) :
    List PartProps :=
  [ { name := "side_panel", type := "panel", quantity := 2,
      dimensions := some ⟨D, H, 10⟩,
      material := some "MDF", notes := some "Lateral esquerda/direita" },
    { name := "back_panel", type := "panel", quantity := 1,
      dimensions := some ⟨L, H, 10⟩,
      material := some "MDF", notes := some "Painel traseiro" },
    { name := "bottom_panel", type := "panel", quantity := 1,
      dimensions := some ⟨L, D, 6⟩,
      material := some "Compensado", notes := some "Fundo da gaveta" },
    { name := "front_panel", type := "panel", quantity := 1,
      dimensions := some ⟨L, H * 0.9, 18⟩,
      material := some "MDF", notes := some "Painel frontal da gaveta" } ]
  ++ (if include_handle then
    [ { name := "handle", type := "hardware", quantity := 1,
        dimensions := some ⟨120, 30, 40⟩,
        material := some "Metal", notes := some "Puxador - montar na frente" } ]
    else [])
  ++ [ { name := "runner", type := "hardware", quantity := 2,
         dimensions := some ⟨D, 30, 20⟩,
         material := some "Steel", notes := some "Corrediças laterais" },
       { name := "ball_bearing", type := "hardware", quantity := 8,
         material := some "Steel", notes := some "Rolamentos para corrediças" } ]
  ++ (if include_screws then
    [ { name := "screw_pan_head", type := "fastener", quantity := 24,
        dimensions := some ⟨4, 20, 0⟩,
        material := some "Steel", notes := some "Parafusos para montagem" },
      { name := "cam_lock", type := "fastener", quantity := 4,
        material := some "Zamak", notes := some "Travas de montagem" } ]
    else [])
  ++ [ { name := "glue", type := "consumable", quantity := 1,
         notes := some "Cola para madeira - 1 tubo" } ]

/-- `create_drawer` from `routes/teste.py` (lines 123–178): builds the part
list from the payload dimensions and flags and returns the assembly
response verbatim (no persistence). -/
def create_drawer (payload : AssemblyDefinition) : AssemblyResponse :=
  { name := "drawer",
    largura := payload.largura,
    altura := payload.altura,
    profundidade := payload.profundidade,
    parts := drawerParts payload.largura payload.altura payload.profundidade
      payload.include_handle payload.include_screws }

/-- Look a part up by name in a part list (first match). -/
def findPart (ps : List PartProps) (n : String) : Option PartProps :=
  ps.find? (fun p => p.name == n)

/-- C1: For every input with positive largura `L`, altura `H`, profundidade `D`
(and any flag values), the drawer BOM contains a `side_panel` with quantity
2 and dimensions `(D, H, 10)`, a `back_panel` with quantity 1 and
dimensions `(L, H, 10)`, a `bottom_panel` with quantity 1 and dimensions
`(L, D, 6)`, and a `front_panel` with quantity 1 and dimensions
`(L, H * 0.9, 18)`, each with category `panel`. -/
theorem drawer_panels_match_table (L H D : ℚ) (_hL : 0 < L) (_hH : 0 < H)
    (_hD : 0 < D) (hdl scr : Bool) :
    (∃ p, findPart (drawerParts L H D hdl scr) "side_panel" = some p ∧
      p.quantity = 2 ∧ p.dimensions = some ⟨D, H, 10⟩ ∧ p.type = "panel") ∧
    (∃ p, findPart (drawerParts L H D hdl scr) "back_panel" = some p ∧
      p.quantity = 1 ∧ p.dimensions = some ⟨L, H, 10⟩ ∧ p.type = "panel") ∧
    (∃ p, findPart (drawerParts L H D hdl scr) "bottom_panel" = some p ∧
      p.quantity = 1 ∧ p.dimensions = some ⟨L, D, 6⟩ ∧ p.type = "panel") ∧
    (∃ p, findPart (drawerParts L H D hdl scr) "front_panel" = some p ∧
      p.quantity = 1 ∧ p.dimensions = some ⟨L, H * 0.9, 18⟩ ∧
      p.type = "panel") :=
  ⟨⟨_, rfl, rfl, rfl, rfl⟩, ⟨_, rfl, rfl, rfl, rfl⟩,
    ⟨_, rfl, rfl, rfl, rfl⟩, ⟨_, rfl, rfl, rfl, rfl⟩⟩

/-- Witness for `drawer_panels_match_table` at `L = H = D = 1`. -/
theorem drawer_panels_match_table_witness :
    (0 : ℚ) < 1 ∧
    (∃ p, findPart (drawerParts 1 1 1 true true) "side_panel" = some p ∧
      p.quantity = 2 ∧ p.dimensions = some ⟨1, 1, 10⟩ ∧ p.type = "panel") :=
  ⟨by norm_num,
    (drawer_panels_match_table 1 1 1 (by norm_num) (by norm_num) (by norm_num)
      true true).1⟩

/-- C2: For the specific input largura=500, altura=300, profundidade=400,
include_handle=true, include_screws=true, the generated part list has a
`side_panel` with quantity 2 and dimensions `(400, 300, 10)`, a
`front_panel` with dimensions `(500, 270, 18)`, and contains exactly 10
pairwise-distinct part names. -/
theorem drawer_example_500_300_400 :
    (∃ p, findPart (drawerParts 500 300 400 true true) "side_panel" = some p ∧
      p.quantity = 2 ∧ p.dimensions = some ⟨400, 300, 10⟩) ∧
    (∃ p, findPart (drawerParts 500 300 400 true true) "front_panel" = some p ∧
      p.dimensions = some ⟨500, 270, 18⟩) ∧
    ((drawerParts 500 300 400 true true).map (fun p => p.name)).Nodup ∧
    ((drawerParts 500 300 400 true true).map (fun p => p.name)).length = 10 := by
  refine ⟨⟨_, rfl, rfl, rfl⟩, ⟨_, rfl, ?_⟩, ?_, rfl⟩
  · show some (⟨500, (300 : ℚ) * 0.9, 18⟩ : PartDimensions) = some ⟨500, 270, 18⟩
    norm_num
  · decide

/-- C3: for every input, `include_handle=false` changes the drawer BOM
output exactly by deleting the single `handle` entry (everything else kept
identically, in the same order), and `include_screws=false` exactly by
deleting the `screw_pan_head` and `cam_lock` entries. -/
theorem drawer_flags_remove_exactly (L H D : ℚ) :
    (∀ scr : Bool,
      drawerParts L H D false scr =
        (drawerParts L H D true scr).filter (fun p => !(p.name == "handle")) ∧
      (drawerParts L H D true scr).countP (fun p => p.name == "handle") = 1) ∧
    (∀ hdl : Bool,
      drawerParts L H D hdl false =
        (drawerParts L H D hdl true).filter
          (fun p => !(p.name == "screw_pan_head" || p.name == "cam_lock")) ∧
      (drawerParts L H D hdl true).countP
        (fun p => p.name == "screw_pan_head" || p.name == "cam_lock") = 2) := by
  constructor
  · intro scr; cases scr <;> exact ⟨rfl, rfl⟩
  · intro hdl; cases hdl <;> exact ⟨rfl, rfl⟩

/-- `FaceProps` from `schemas.py` (lines 39–43): per-face overrides, with
`color`, `material` and `thickness` optional (default unset). -/
structure FaceProps where
  name : String
  color : Option String := none
  material : Option String := none
  thickness : Option ℚ := none
deriving Repr, DecidableEq

/-- `BlockDefinition` from `schemas.py` (lines 46–50): block input; `faces`
defaults to the empty list. -/
structure BlockDefinition where
  largura : ℚ
  altura : ℚ
  profundidade : ℚ
  faces : List FaceProps := []
deriving Repr, DecidableEq

/-- `BlockResponse` from `schemas.py` (lines 53–58). -/
structure BlockResponse where
  name : String := "block"
  largura : ℚ
  altura : ℚ
  profundidade : ℚ
  faces : List FaceProps
deriving Repr, DecidableEq

/-- The default face names of `create_block` (`routes/teste.py` line 108). -/
def default_face_names : List String :=
  ["front", "back", "left", "right", "top", "bottom"]

/-- `create_block` from `routes/teste.py` (lines 101–120): if the payload's
face list is non-empty (`payload.faces and len(payload.faces) > 0`) it is
returned as-is, otherwise the six default faces are produced. -/
def create_block (payload : BlockDefinition) : BlockResponse :=
  { name := "block",
    largura := payload.largura,
    altura := payload.altura,
    profundidade := payload.profundidade,
    faces :=
      if 0 < payload.faces.length then payload.faces
      else default_face_names.map (fun n => ({ name := n } : FaceProps)) }

/-- C4: the face resolver returns, on empty input, exactly the six default
faces in canonical order (front, back, left, right, top, bottom) with
color, material and thickness unset; on non-empty input it returns the
input list unchanged, merging in no defaults. -/
theorem create_block_face_contract (bd : BlockDefinition) :
    (bd.faces = [] → (create_block bd).faces =
      [⟨"front", none, none, none⟩, ⟨"back", none, none, none⟩,
       ⟨"left", none, none, none⟩, ⟨"right", none, none, none⟩,
       ⟨"top", none, none, none⟩, ⟨"bottom", none, none, none⟩]) ∧
    (bd.faces ≠ [] → (create_block bd).faces = bd.faces) := by
  obtain ⟨l, a, p, fs⟩ := bd
  cases fs with
  | nil => exact ⟨fun _ => rfl, fun h => absurd rfl h⟩
  | cons f t =>
    refine ⟨fun h => by simp at h, fun _ => ?_⟩
    simp [create_block]

/-- Witness for `create_block_face_contract`: the empty-input branch at a
concrete block, and the no-merge branch at a single `top` override. -/
theorem create_block_face_contract_witness :
    (create_block ⟨1, 2, 3, []⟩).faces =
      [⟨"front", none, none, none⟩, ⟨"back", none, none, none⟩,
       ⟨"left", none, none, none⟩, ⟨"right", none, none, none⟩,
       ⟨"top", none, none, none⟩, ⟨"bottom", none, none, none⟩] ∧
    (create_block ⟨1, 2, 3, [⟨"top", some "red", none, none⟩]⟩).faces =
      [⟨"top", some "red", none, none⟩] :=
  ⟨(create_block_face_contract ⟨1, 2, 3, []⟩).1 rfl,
   (create_block_face_contract
      ⟨1, 2, 3, [⟨"top", some "red", none, none⟩]⟩).2 (by simp)⟩

/-- `SketchDimensions` from `schemas.py` (lines 33–36): three required
ints. -/
structure SketchDimensions where
  largura : ℤ
  altura : ℤ
  profundidade : ℤ
deriving Repr, DecidableEq

/-- `SketchResponse` from `schemas.py` (lines 22–26). -/
structure SketchResponse where
  name : String := "quadrado"
  x : ℤ := 10
  y : ℤ := 10
  z : ℤ := 10
deriving Repr, DecidableEq

/-- `post_sketch_caixote` from `routes/teste.py` (lines 54–57): maps the
payload to the display triple `x = largura, y = profundidade,
z = altura`. -/
def post_sketch_caixote (payload : SketchDimensions) : SketchResponse :=
  { name := "caixote",
    x := payload.largura,
    y := payload.profundidade,
    z := payload.altura }

/-- C5: for every input triple, the sketch resolver returns the display
triple `x = largura`, `y = profundidade`, `z = altura` (depth on the
second axis, height on the third) — in particular also when the three
inputs coincide. -/
theorem sketch_caixote_axis_swap (payload : SketchDimensions) :
    (post_sketch_caixote payload).x = payload.largura ∧
    (post_sketch_caixote payload).y = payload.profundidade ∧
    (post_sketch_caixote payload).z = payload.altura :=
  ⟨rfl, rfl, rfl⟩

/-- Rank of a part category in the emission order declared by the spec:
panels, then hardware, then fasteners, then consumables. -/
def catRank : String → ℕ
  | "panel" => 0
  | "hardware" => 1
  | "fastener" => 2
  | "consumable" => 3
  | _ => 4

/-- C6: the drawer BOM generator is a deterministic pure function of its
input (equal payloads give equal responses), and in every output the part
categories appear in the fixed order panel ≤ hardware ≤ fastener ≤
consumable. -/
theorem drawer_deterministic_and_ordered (p q : AssemblyDefinition)
    (h : p = q) :
    create_drawer p = create_drawer q ∧
    List.Chain' (fun a b => a ≤ b)
      ((create_drawer p).parts.map (fun x => catRank x.type)) := by
  subst h
  refine ⟨rfl, ?_⟩
  obtain ⟨L, H, D, hdl, scr⟩ := p
  have e : ∀ hd sc : Bool,
      (drawerParts L H D hd sc).map (fun x => catRank x.type) =
        (([0, 0, 0, 0] ++ (if hd then [1] else []) ++ [1, 1]
          ++ (if sc then [2, 2] else []) ++ [3]) : List ℕ) := by
    intro hd sc
    cases hd <;> cases sc <;> rfl
  show List.Chain' (fun a b => a ≤ b)
    ((drawerParts L H D hdl scr).map (fun x => catRank x.type))
  rw [e hdl scr]
  cases hdl <;> cases scr <;>
    simp [List.chain'_cons, List.chain'_singleton]

/-- Witness for `drawer_deterministic_and_ordered` at a concrete payload. -/
theorem drawer_deterministic_and_ordered_witness :
    create_drawer ⟨500, 300, 400, true, true⟩ =
      create_drawer ⟨500, 300, 400, true, true⟩ ∧
    List.Chain' (fun a b => a ≤ b)
      ((create_drawer ⟨500, 300, 400, true, true⟩).parts.map
        (fun x => catRank x.type)) :=
  drawer_deterministic_and_ordered ⟨500, 300, 400, true, true⟩
    ⟨500, 300, 400, true, true⟩ rfl

/-- Counterexample to C7: a request with all three dimensions negative
passes the schema validation of `AssemblyDefinition` (which only checks
presence, `schemas.py` lines 76–81) and the generator is then invoked on
it, producing its full 10-part list — validation does not fail and the
generator is not protected. -/
theorem negative_dims_reach_generator :
    validateAssemblyDims (some (-1)) (some (-1)) (some (-1)) =
      some (-1, -1, -1) ∧
    (create_drawer ⟨-1, -1, -1, true, true⟩).parts.length = 10 :=
  ⟨rfl, rfl⟩

/-- C7 (amended): the caller boundary performs only presence/type
validation — a request with a negative dimension passes validation
unchanged, the generator is invoked on it, and it produces its usual part
list. -/
theorem no_range_validation (l a p : ℚ) (_hl : l < 0) :
    validateAssemblyDims (some l) (some a) (some p) = some (l, a, p) ∧
    (create_drawer ⟨l, a, p, true, true⟩).parts.length = 10 :=
  ⟨rfl, rfl⟩

/-- Witness for `no_range_validation` at `largura = -1`. -/
theorem no_range_validation_witness :
    (-1 : ℚ) < 0 ∧
    (validateAssemblyDims (some (-1)) (some 1) (some 1) = some (-1, 1, 1) ∧
     (create_drawer ⟨-1, 1, 1, true, true⟩).parts.length = 10) :=
  ⟨by norm_num, no_range_validation (-1) 1 1 (by norm_num)⟩

/-- A row of the remote `assets` table, as consumed by the gateway; only
its `id` (used by the `.eq` point filter) and `type` (used by the list
filter) matter to the claims. -/
structure AssetRow where
  id : String
  type : String := ""
deriving Repr, DecidableEq

/-- The condition of the remote store as observed by one gateway call,
from `supabase_client.py`: `noClient` models `create_client` having failed
(the lazily initialised client is `None`); `raising` models the network
call raising an exception (caught by the surrounding `try/except`);
`reachable rows` models a successful call against a table holding
`rows`. -/
inductive RemoteStore where
  | noClient : RemoteStore
  | raising : RemoteStore
  | reachable : List AssetRow → RemoteStore

namespace SupabaseManager

/-- `SupabaseManager.get_asset` from `supabase_client.py` (lines 78–89):
returns `None` when no client is available, `None` when the call raises,
and otherwise `response.data[0] if response.data else None` where the
query selects the rows whose `id` equals `asset_id`. -/
def get_asset : RemoteStore → String → Option AssetRow
  | RemoteStore.noClient, _ => none
  | RemoteStore.raising, _ => none
  | RemoteStore.reachable rows, asset_id =>
      (rows.filter (fun r => r.id == asset_id)).head?

/-- `SupabaseManager.list_assets` from `supabase_client.py` (lines
91–107): returns `[]` when no client is available or the call raises;
otherwise applies the `type` filter only when `asset_type` is truthy
(present and non-empty) and truncates to `limit` rows. -/
def list_assets : RemoteStore → Option String → ℕ → List AssetRow
  | RemoteStore.noClient, _, _ => []
  | RemoteStore.raising, _, _ => []
  | RemoteStore.reachable rows, asset_type, limit =>
      let filtered := match asset_type with
        | some t => if t = "" then rows else rows.filter (fun r => r.type == t)
        | none => rows
      filtered.take limit

/-- `SupabaseManager.delete_asset` from `supabase_client.py` (lines
123–135): `False` when no client is available or the call raises, and
`True` after any successful call — the response is never inspected. -/
def delete_asset : RemoteStore → String → Bool
  | RemoteStore.noClient, _ => false
  | RemoteStore.raising, _ => false
  | RemoteStore.reachable _, _ => true

end SupabaseManager

/-- When no row carries the requested id, the point lookup on a reachable
store yields `none`. -/
theorem get_asset_reachable_absent (rows : List AssetRow) (asset_id : String)
    (h : ∀ r ∈ rows, r.id ≠ asset_id) :
    SupabaseManager.get_asset (RemoteStore.reachable rows) asset_id = none := by
  show (rows.filter (fun r => r.id == asset_id)).head? = none
  have hnil : rows.filter (fun r => r.id == asset_id) = [] :=
    List.filter_eq_nil_iff.mpr (fun r hr => by simpa using h r hr)
  rw [hnil]
  rfl

/-- Counterexample to C8: at the concrete id `"a1"`, the gateway's point
lookup returns the very same result (`none`) when the store could not be
reached (`noClient`) as when the store was reached but holds no record
with that id — the two outcomes are not distinguishable from the result of
`get_asset`. -/
theorem get_asset_outcomes_conflated :
    SupabaseManager.get_asset RemoteStore.noClient "a1" =
      SupabaseManager.get_asset (RemoteStore.reachable []) "a1" ∧
    SupabaseManager.get_asset RemoteStore.noClient "a1" = none :=
  ⟨rfl, rfl⟩

/-- C8 (amended): for point lookups the gateway collapses "store
unavailable" and "not found" into the same outcome: `get_asset` returns
`none` when the client could not be constructed, when the remote call
raises, and when the store was reached but no row carries the requested
id, so the three situations are indistinguishable from its result. -/
theorem get_asset_unavailable_matches_notfound (asset_id : String)
    (rows : List AssetRow) (h : ∀ r ∈ rows, r.id ≠ asset_id) :
    SupabaseManager.get_asset RemoteStore.noClient asset_id = none ∧
    SupabaseManager.get_asset RemoteStore.raising asset_id = none ∧
    SupabaseManager.get_asset (RemoteStore.reachable rows) asset_id = none :=
  ⟨rfl, rfl, get_asset_reachable_absent rows asset_id h⟩

/-- Witness for `get_asset_unavailable_matches_notfound` at id `"a1"` on a
store holding one unrelated row. -/
theorem get_asset_unavailable_matches_notfound_witness :
    (∀ r ∈ [({ id := "b7", type := "panel" } : AssetRow)], r.id ≠ "a1") ∧
    (SupabaseManager.get_asset RemoteStore.noClient "a1" = none ∧
     SupabaseManager.get_asset RemoteStore.raising "a1" = none ∧
     SupabaseManager.get_asset
       (RemoteStore.reachable [{ id := "b7", type := "panel" }]) "a1" =
         none) :=
  ⟨by decide,
   get_asset_unavailable_matches_notfound "a1"
     [{ id := "b7", type := "panel" }] (by decide)⟩

/-- C9: the gateway never lets an exception escape its boundary — every
error path is mapped to a value.  A point lookup for an id no row carries
yields the not-found outcome `none` (whatever the store's condition), and
a list call when the store is unreachable (no client, or the remote call
raises) yields the empty sequence. -/
theorem gateway_absorbs_failures (asset_id : String) (rows : List AssetRow)
    (h : ∀ r ∈ rows, r.id ≠ asset_id) (atype : Option String) (lim : ℕ) :
    SupabaseManager.get_asset (RemoteStore.reachable rows) asset_id = none ∧
    SupabaseManager.get_asset RemoteStore.noClient asset_id = none ∧
    SupabaseManager.get_asset RemoteStore.raising asset_id = none ∧
    SupabaseManager.list_assets RemoteStore.noClient atype lim = [] ∧
    SupabaseManager.list_assets RemoteStore.raising atype lim = [] :=
  ⟨get_asset_reachable_absent rows asset_id h, rfl, rfl, rfl, rfl⟩

/-- Witness for `gateway_absorbs_failures` at id `"missing"` on a store
holding one unrelated row. -/
theorem gateway_absorbs_failures_witness :
    (∀ r ∈ [({ id := "b7", type := "panel" } : AssetRow)],
      r.id ≠ "missing") ∧
    (SupabaseManager.get_asset
       (RemoteStore.reachable [{ id := "b7", type := "panel" }]) "missing" =
         none ∧
     SupabaseManager.get_asset RemoteStore.noClient "missing" = none ∧
     SupabaseManager.get_asset RemoteStore.raising "missing" = none ∧
     SupabaseManager.list_assets RemoteStore.noClient (some "panel") 100 =
       [] ∧
     SupabaseManager.list_assets RemoteStore.raising (some "panel") 100 =
       []) :=
  ⟨by decide,
   gateway_absorbs_failures "missing" [{ id := "b7", type := "panel" }]
     (by decide) (some "panel") 100⟩

/-- C10: on a reachable store where the remote call does not raise, the
gateway's delete returns `true` for every id — whether or not any row
carries that id — so deleting a non-existent id is indistinguishable from
deleting an existing one. -/
theorem delete_asset_ignores_existence (rows : List AssetRow)
    (asset_id : String) :
    SupabaseManager.delete_asset (RemoteStore.reachable rows) asset_id =
      true ∧
    ∀ other_id : String,
      SupabaseManager.delete_asset (RemoteStore.reachable rows) asset_id =
        SupabaseManager.delete_asset (RemoteStore.reachable rows) other_id :=
  ⟨rfl, fun _ => rfl⟩
